import Mathlib

/-!
# Verification of the `species` model-fitting core (`species/fit/fit_model.py`)

This file gives a shallow embedding of the parameter-registry,
prior-transform and log-likelihood machinery of `FitModel` and proves or
refutes the frozen claims about it.

Modelling conventions:

* Python floats are idealized as exact rationals (`ℚ`) for values that the
  source manipulates with ordinary arithmetic, while the IEEE special
  values that the claims are about (`inf`, `-inf`, `nan`) are modelled
  explicitly by the type `FVal` with IEEE-754 propagation rules for the
  arithmetic the source performs on arrays.
* Transcendental float operations (`np.log`, `np.sqrt`, `np.exp`, `10**x`,
  `np.pi`) have no exact rational realization; the embedding is
  parametrized over their finite-value behaviour (`RealOps`).  Every
  special-value case (`log` of `0`, of a negative number, of `inf`/`nan`,
  ...) is modelled exactly, so all NaN/∞ conclusions below are independent
  of the chosen finite realization.
* Calls into modules that are outside the likelihood core (grid
  interpolation, synthetic photometry, `apply_obs` resampling) are inputs
  of the embedding: each dataset carries the forward-model flux it
  receives from those collaborators as a function of the sampled
  parameters, matching the external-collaborator interface of the design.
* Python exceptions are modelled with `Except PyError`.
-/

namespace Species

/-- Python exceptions that the embedded code can raise. -/
inductive PyError where
  | valueError (msg : String)
  | typeError (msg : String)
  | keyError (key : String)
  | indexError
  | linAlgError
deriving DecidableEq, Repr

/-- IEEE-754-like value: a finite float (idealized as an exact rational),
a signed infinity, or NaN. -/
inductive FVal where
  | fin (q : ℚ)
  | pinf
  | ninf
  | nan
deriving DecidableEq, Repr

namespace FVal

/-- Whether the value is NaN. -/
def isNaN : FVal → Bool
  | nan => true
  | _ => false

/-- The `np.isfinite` test: true exactly on finite values (false on `±inf` and NaN). -/
def npIsFinite : FVal → Bool
  | fin _ => true
  | _ => false

/-- IEEE negation. -/
def neg : FVal → FVal
  | fin q => fin (-q)
  | pinf => ninf
  | ninf => pinf
  | nan => nan

/-- IEEE addition: NaN is absorbing, `inf + (-inf) = NaN`. -/
def add : FVal → FVal → FVal
  | nan, _ => nan
  | _, nan => nan
  | pinf, ninf => nan
  | ninf, pinf => nan
  | pinf, _ => pinf
  | _, pinf => pinf
  | ninf, _ => ninf
  | _, ninf => ninf
  | fin a, fin b => fin (a + b)

/-- IEEE subtraction (`x - y = x + (-y)` exactly). -/
def sub (a b : FVal) : FVal := add a (neg b)

/-- IEEE multiplication: NaN absorbing, `0 * inf = NaN`. -/
def mul : FVal → FVal → FVal
  | nan, _ => nan
  | _, nan => nan
  | fin a, fin b => fin (a * b)
  | fin a, pinf => if 0 < a then pinf else if a < 0 then ninf else nan
  | fin a, ninf => if 0 < a then ninf else if a < 0 then pinf else nan
  | pinf, fin b => if 0 < b then pinf else if b < 0 then ninf else nan
  | ninf, fin b => if 0 < b then ninf else if b < 0 then pinf else nan
  | pinf, pinf => pinf
  | pinf, ninf => ninf
  | ninf, pinf => ninf
  | ninf, ninf => pinf

/-- IEEE division: NaN absorbing, `0/0 = inf/inf = NaN`, `x/0 = ±inf`
for `x ≠ 0` (ℚ has no signed zero; the claims never divide by a negative
zero). -/
def div : FVal → FVal → FVal
  | nan, _ => nan
  | _, nan => nan
  | fin a, fin b =>
      if b = 0 then (if a = 0 then nan else if 0 < a then pinf else ninf)
      else fin (a / b)
  | fin _, pinf => fin 0
  | fin _, ninf => fin 0
  | pinf, fin b => if b < 0 then ninf else pinf
  | ninf, fin b => if b < 0 then pinf else ninf
  | pinf, _ => nan
  | ninf, _ => nan

/-- Plain `np.sum`-style left-fold summation (NaN propagates). -/
def sumF (l : List FVal) : FVal := l.foldl add (fin 0)

/-- The `np.nansum` reduction: NaN entries are treated as zero (they are excluded from
the total); infinities are kept. -/
def nansum (l : List FVal) : FVal :=
  l.foldl (fun acc x => add acc (if x.isNaN then fin 0 else x)) (fin 0)

/-- Finite projection used where the source hands a float to a LAPACK
routine; the embedded covariance branches are only used on finite inputs
(see the comments at the use sites). -/
def toQ : FVal → ℚ
  | fin q => q
  | _ => 0

end FVal

/-- Finite-value realizations of the transcendental float operations used
by the likelihood; `piQ` is the float value of `np.pi`.  All special-value
behaviour (NaN, infinities, nonpositive `log`/`sqrt` arguments) is handled
outside of these, in `npLog`/`npSqrt`, so the claims below do not depend
on the realization. -/
structure RealOps where
  piQ : ℚ
  logFin : ℚ → ℚ
  sqrtFin : ℚ → ℚ
  expFin : ℚ → ℚ
  pow10Fin : ℚ → ℚ

/-- A concrete stand-in realization used to close witnesses and
counterexamples; every theorem that depends on an actual value of a
transcendental operation only evaluates it at arguments where the
stand-in is exact (e.g. `sqrt 1`). -/
def defOps : RealOps :=
  { piQ := 3
  , logFin := fun _ => 0
  , sqrtFin := fun q => q
  , expFin := fun _ => 1
  , pow10Fin := fun _ => 1 }

/-- The `np.log` function on the IEEE value model, parametric in the finite branch. -/
def npLog (logFin : ℚ → ℚ) : FVal → FVal
  | FVal.nan => FVal.nan
  | FVal.pinf => FVal.pinf
  | FVal.ninf => FVal.nan
  | FVal.fin q =>
      if 0 < q then FVal.fin (logFin q)
      else if q = 0 then FVal.ninf else FVal.nan

/-- The `np.sqrt` function on the IEEE value model, parametric in the finite branch. -/
def npSqrt (sqrtFin : ℚ → ℚ) : FVal → FVal
  | FVal.nan => FVal.nan
  | FVal.pinf => FVal.pinf
  | FVal.ninf => FVal.nan
  | FVal.fin q => if q < 0 then FVal.nan else FVal.fin (sqrtFin q)

/-! ## Python dictionaries

Association lists with Python `dict` semantics: assignment to an existing
key updates it in place (its position is preserved), assignment to a new
key appends it, iteration follows insertion order. -/

/-- Assignment `d[k] = v` with Python `dict` semantics. -/
def dictSet (d : List (String × α)) (k : String) (v : α) : List (String × α) :=
  if (d.lookup k).isSome then
    d.map (fun kv => if kv.1 = k then (k, v) else kv)
  else d ++ [(k, v)]

/-- Deletion `del d[k]` (all embedded deletions are of keys that are present). -/
def dictDel (d : List (String × α)) (k : String) : List (String × α) :=
  d.filter (fun kv => kv.1 ≠ k)

/-! ## Bound values

The shapes a value of the user-supplied `bounds` dictionary can take in
the configurations of the claims. -/

/-- A value of the `bounds` dictionary. -/
inductive BVal where
  /-- An ordinary `(lo, hi)` range of two floats. -/
  | range (lo hi : ℚ)
  /-- The value `None`: take the grid boundaries. -/
  | noneV
  /-- A pair of two ranges `((lo0, hi0), (lo1, hi1))` requesting a binary
  split. -/
  | pairRange (r0 r1 : ℚ × ℚ)
  /-- The value `(None, None)`: a binary split with both components on the grid
  boundaries. -/
  | noneNone
  /-- A list of ranges (multiple blackbody components). -/
  | rlist (l : List (ℚ × ℚ))
deriving DecidableEq, Repr

/-! ## `FitModel.__init__` entry checks (source lines 485–491) -/

/-- The `inc_phot` / `inc_spec` arguments: a boolean or a list of names. -/
inductive IncData where
  | flag (b : Bool)
  | names (l : List String)
deriving DecidableEq, Repr

/-- Python falsiness of an `inc_phot` / `inc_spec` argument
(`not inc_phot`). -/
def incDataEmpty : IncData → Bool
  | IncData.flag b => !b
  | IncData.names l => l.isEmpty

/-- The two configuration checks at the top of `FitModel.__init__`:
no data selected, and `model='planck'` without `teff`/`radius` bounds.
With `bounds=None` the membership test `"teff" not in bounds` itself
raises a `TypeError`. -/
def initChecks (model : String) (bounds : Option (List (String × BVal)))
    (incPhot incSpec : IncData) : Except PyError Unit := do
  if incDataEmpty incPhot && incDataEmpty incSpec then
    throw (PyError.valueError "No photometric or spectroscopic data has been selected.")
  if model = "planck" then
    match bounds with
    | none => throw (PyError.typeError "argument of type NoneType is not iterable")
    | some bs =>
        if (bs.lookup "teff").isNone || (bs.lookup "radius").isNone then
          throw (PyError.valueError "The bounds dictionary should contain teff and radius.")
  pure ()

/-! ## `FitModel._prior_transform` (source lines 1278–1330) -/

/-- The prior configuration that `_prior_transform` reads: the ordered
free-parameter list (whose positions are the cube indices built at source
lines 1191–1193), the uniform prior bounds, and the normal priors
`(mean, sigma)`. -/
structure PriorSetup where
  modelpar : List String
  bounds : List (String × (ℚ × ℚ))
  normalPrior : List (String × (ℚ × ℚ))

/-- The transform `_prior_transform`: for each free parameter, a parameter with a
normal prior is mapped with `norm.ppf(u, loc=mean, scale=sigma)
= mean + sigma * ppfStd u`, and otherwise with the affine map
`lo + (hi - lo) * u`.  The loop writes each cube position exactly once
(the cube index is a bijection), so it is a position-wise map.  A free
parameter carried by neither table would raise a `KeyError` in the
source; the claims only concern parameters that are carried. -/
def priorTransform (ppfStd : ℚ → ℚ) (s : PriorSetup) (cube : List ℚ) : List ℚ :=
  (s.modelpar.zip cube).map (fun pc =>
    match s.normalPrior.lookup pc.1 with
    | some ms => ms.1 + ms.2 * ppfStd pc.2
    | none =>
        match s.bounds.lookup pc.1 with
        | some lh => lh.1 + (lh.2 - lh.1) * pc.2
        | none => pc.2)

/-! ## The UltraNest likelihood wrapper (source lines 2461–2484) -/

/-- The wrapper `_lnlike_ultranest`: the log-likelihood handed to UltraNest; a
non-finite value from `_lnlike_func` is replaced by `-1e100`. -/
def lnlikeUltranest (lnLike : FVal) : FVal :=
  if lnLike.npIsFinite then lnLike else FVal.fin (-(10 ^ 100 : ℚ))

/-! ## `model='planck'` parameter setup (source lines 558–582) -/

/-- The registry state produced by the `planck` branch of
`FitModel.__init__` for a list of blackbody components. -/
structure PlanckSetup where
  nPlanck : ℕ
  modelpar : List String
  bounds : List (String × BVal)
deriving Repr

/-- Construction of `FitModel` with `model='planck'` and list-valued `teff` /
`radius` bounds: one `teff_i`/`radius_i` pair per component, then
`parallax`.  (`bounds["radius"][teff_idx]` raises an `IndexError` when
the radius list is shorter; the claims use equal-length lists.) -/
def planckInit (teffB radiusB : List (ℚ × ℚ)) : PlanckSetup :=
  let idxs := List.range teffB.length
  { nPlanck := teffB.length
  , modelpar :=
      (idxs.map (fun i => [s!"teff_{i}", s!"radius_{i}"])).flatten ++ ["parallax"]
  , bounds :=
      (idxs.map (fun i =>
        [ (s!"teff_{i}", match teffB.get? i with
            | some r => BVal.range r.1 r.2
            | none => BVal.noneV)
        , (s!"radius_{i}", match radiusB.get? i with
            | some r => BVal.range r.1 r.2
            | none => BVal.noneV) ])).flatten }

/-! ## `FitModel._lnlike_func` (source lines 1332–2032) -/

/-- The sampled-parameter dictionary `all_param` (source lines 1355–1363):
free parameters looked up in the cube through their cube index, then the
fixed parameters. -/
def allParamOf (cubeIndex : List (String × ℕ)) (fixParam : List (String × ℚ))
    (params : List ℚ) : List (String × ℚ) :=
  cubeIndex.map (fun ci => (ci.1, params.getD ci.2 0)) ++ fixParam

/-- The blackbody ordering check for `model='planck'` with several
components (source lines 1374–1383): reject (return `-inf`) when some
`teff_{i+1} > teff_i` or some `radius_i > radius_{i+1}`. -/
def planckCheckReject (nPlanck : ℕ) (p : String → ℚ) : Bool :=
  (List.range (nPlanck - 1)).any (fun i =>
    decide (p s!"teff_{i + 1}" > p s!"teff_{i}")
      || decide (p s!"radius_{i}" > p s!"radius_{i + 1}"))

/-- The blackbody-disk ordering check (source lines 1387–1414).  For
`n_disk == 1` the source compares `all_param["disk_teff"]` and
`all_param["disk_radius"]` with themselves; the embedding reproduces the
self-comparisons literally.  For `n_disk > 1` the first component is
compared against the atmosphere `teff`/`radius` and the rest against the
previous component. -/
def diskCheckReject (nDisk : ℕ) (p : String → ℚ) : Bool :=
  if nDisk = 1 then
    decide (p "disk_teff" > p "disk_teff")
      || decide (p "disk_radius" < p "disk_radius")
  else if 1 < nDisk then
    (List.range nDisk).any (fun i =>
      if i = 0 then
        decide (p "disk_teff_0" > p "teff")
          || decide (p "disk_radius_0" < p "radius")
      else
        decide (p s!"disk_teff_{i}" > p s!"disk_teff_{i - 1}")
          || decide (p s!"disk_radius_{i}" < p s!"disk_radius_{i - 1}"))
  else false

/-! ### Matrix helpers for the covariance branches

`np.linalg.inv` raises `LinAlgError` exactly on a singular matrix; the
rational model inverts through the adjugate. -/

/-- The minor of a list matrix: erase row `i` and column `j`. -/
def matMinor (m : List (List ℚ)) (i j : ℕ) : List (List ℚ) :=
  (m.eraseIdx i).map (fun row => row.eraseIdx j)

/-- Determinant of an `n × n` list matrix by Laplace expansion along the
first row. -/
def detList : ℕ → List (List ℚ) → ℚ
  | 0, _ => 1
  | n + 1, m =>
      match m with
      | [] => 0
      | row :: _ =>
          (List.range (n + 1)).foldl (fun acc j =>
            acc + (-1 : ℚ) ^ j * row.getD j 0 * detList n (matMinor m 0 j)) 0

/-- Inverse through the adjugate: entry `(i, j)` is the `(j, i)` cofactor
divided by the determinant. -/
def invList (m : List (List ℚ)) : List (List ℚ) :=
  let n := m.length
  let d := detList n m
  (List.range n).map (fun i => (List.range n).map (fun j =>
    ((-1 : ℚ) ^ (i + j) * detList (n - 1) (matMinor m j i)) / d))

/-- The inversion `np.linalg.inv`: `LinAlgError` on a singular matrix, the inverse
otherwise. -/
def npLinalgInv (m : List (List ℚ)) : Except PyError (List (List ℚ)) :=
  if detList m.length m = 0 then Except.error PyError.linAlgError
  else Except.ok (invList m)

/-- Product `np.dot` of a rational matrix with an IEEE-valued vector (plain
summation: NaN propagates). -/
def matVecQ (m : List (List ℚ)) (v : List FVal) : List FVal :=
  m.map (fun row =>
    FVal.sumF (List.zipWith (fun q x => FVal.mul (FVal.fin q) x) row v))

/-- Product `np.dot` of two IEEE-valued vectors (plain summation: NaN
propagates). -/
def vdotF (v w : List FVal) : FVal :=
  FVal.sumF (List.zipWith FVal.mul v w)

/-! ### Likelihood configuration

The forward-model fluxes are produced by collaborator modules outside the
likelihood core (grid interpolation, `ReadPlanck`, synthetic photometry,
`apply_obs` scaling/extinction/broadening/resampling); each dataset
therefore carries the flux the likelihood receives from them as a
function of the sampled parameter vector. -/

/-- One photometric dataset (`self.objphot` entry with its filter and the
collaborator-produced model flux); the `objphot` arrays of the embedded
configurations are one-dimensional (`phot_item.ndim == 1`, the branch at
source lines 1685–1713; the `ndim == 2` branch repeats the same
accumulation per column). -/
structure PhotDataE where
  filterName : String
  instrName : String
  obsFlux : ℚ
  obsErr : ℚ
  weight : ℚ
  flux : List ℚ → FVal

/-- One spectroscopic dataset: the stored data matrix columns, the
optional covariance matrix and its stored inverse (`spectrum[1]`,
`spectrum[2]`), the Gaussian-process flag (`fit_corr`), the
log-likelihood weights, and the collaborator-produced model flux on the
data wavelength grid. -/
structure SpecDataE where
  name : String
  wavel : List ℚ
  flux : List ℚ
  err : List ℚ
  cov : Option (List (List ℚ))
  covInv : Option (List (List ℚ))
  fitCorr : Bool
  weight : List ℚ
  modelFlux : List ℚ → List FVal

/-- The `FitModel` state read by `_lnlike_func`.  The embedded
configurations carry only simple normal priors (the `mass` and
`ratio_*` prior branches call further collaborator modules and are not
exercised by any claim). -/
structure LnlikeCfg where
  model : String
  nPlanck : ℕ
  nDisk : ℕ
  cubeIndex : List (String × ℕ)
  fixParam : List (String × ℚ)
  normalPrior : List (String × (ℚ × ℚ))
  phot : List PhotDataE
  spec : List SpecDataE

/-- The photometric log-likelihood contribution of one filter (source
lines 1683–1713): optional error inflation of the variance, then the
Gaussian term `-0.5 * w * (obs - flux)^2 / var` and the normalization
`-0.5 * log(2 * pi * var)`, both added with plain (NaN-propagating)
addition. -/
def photTerm (ops : RealOps) (allParam : List (String × ℚ)) (pd : PhotDataE)
    (params : List ℚ) : FVal :=
  let photFlux := pd.flux params
  let photVar : ℚ :=
    match allParam.lookup (pd.filterName ++ "_error") with
    | some e => pd.obsErr ^ 2 + e ^ 2 * pd.obsErr ^ 2
    | none =>
        match allParam.lookup (pd.instrName ++ "_error") with
        | some e => pd.obsErr ^ 2 + e ^ 2 * pd.obsErr ^ 2
        | none => pd.obsErr ^ 2
  let resid := FVal.sub (FVal.fin pd.obsFlux) photFlux
  FVal.add
    (FVal.div
      (FVal.mul (FVal.fin (-(1 / 2 : ℚ) * pd.weight)) (FVal.mul resid resid))
      (FVal.fin photVar))
    (FVal.mul (FVal.fin (-(1 / 2 : ℚ)))
      (npLog ops.logFin (FVal.fin (2 * ops.piQ * photVar))))

/-- The spectroscopic log-likelihood contribution of one spectrum
(source lines 1939–2030): calibration scaling of the data, optional
error inflation of the variance, then one of the three branches —
stored (inflated) covariance, Gaussian-process covariance model, or
independent pixels.  The covariance branches hand the variance to
`sqrt` and LAPACK through its finite part (`FVal.toQ`); the embedded
configurations that reach them have finite variances. -/
def specContribution (ops : RealOps) (allParam : List (String × ℚ))
    (cubeIndex : List (String × ℕ)) (sd : SpecDataE) (params : List ℚ) :
    Except PyError FVal := do
  let p : String → ℚ := fun k => (allParam.lookup k).getD 0
  let modelFlux0 := sd.modelFlux params
  let modelFlux :=
    if (cubeIndex.lookup "flux_offset").isSome then
      modelFlux0.map (fun m => FVal.add m (FVal.fin (p "flux_offset")))
    else modelFlux0
  let specScaling : ℚ :=
    match allParam.lookup ("scaling_" ++ sd.name) with
    | some v => v
    | none => 1
  let dataFlux : List ℚ := sd.flux.map (fun f => specScaling * f)
  let dataVar : List FVal :=
    match allParam.lookup ("error_" ++ sd.name) with
    | some e =>
        List.zipWith (fun s m =>
          FVal.add (FVal.fin (s ^ 2))
            (FVal.mul (FVal.mul (FVal.fin e) m) (FVal.mul (FVal.fin e) m)))
          sd.err modelFlux
    | none => sd.err.map (fun s => FVal.fin (s ^ 2))
  let resid : List FVal :=
    List.zipWith (fun d m => FVal.sub (FVal.fin d) m) dataFlux modelFlux
  let logVarTerm : FVal :=
    FVal.mul (FVal.fin (-(1 / 2 : ℚ)))
      (FVal.nansum (dataVar.map (fun v =>
        npLog ops.logFin (FVal.mul (FVal.fin (2 * ops.piQ)) v))))
  match sd.covInv with
  | some storedInv =>
      -- branch (a): a covariance matrix was supplied with the data
      let dataCovInv ←
        if (allParam.lookup ("error_" ++ sd.name)).isSome then
          -- invert the inflated covariance matrix
          let sigmaRatio : List ℚ :=
            List.zipWith (fun v s => ops.sqrtFin (FVal.toQ v) / s) dataVar sd.err
          let cov := sd.cov.getD []
          let covInfl :=
            (List.zipWith (fun row si =>
              List.zipWith (fun c sj => c * si * sj) row sigmaRatio) cov sigmaRatio)
          npLinalgInv covInfl
        else
          pure storedInv
      let quad := vdotF
        (List.zipWith (fun w r => FVal.mul (FVal.fin w) r) sd.weight resid)
        (matVecQ dataCovInv resid)
      return FVal.add (FVal.mul (FVal.fin (-(1 / 2 : ℚ))) quad) logVarTerm
  | none =>
      if sd.fitCorr then
        -- branch (b): Gaussian-process covariance model (Wang et al. 2020)
        let corrLen : ℚ := ops.pow10Fin (p ("corr_len_" ++ sd.name))
        let corrAmp : ℚ := p ("corr_amp_" ++ sd.name)
        let error : List ℚ := dataVar.map (fun v => ops.sqrtFin (FVal.toQ v))
        let n := sd.wavel.length
        let covMatrix : List (List ℚ) :=
          (List.range n).map (fun i => (List.range n).map (fun j =>
            corrAmp ^ 2 * (error.getD i 0) * (error.getD j 0)
              * ops.expFin (-((sd.wavel.getD i 0 - sd.wavel.getD j 0) ^ 2)
                  / (2 * corrLen ^ 2))
              + (if i = j then 1 else 0) * (1 - corrAmp ^ 2) * (error.getD i 0) ^ 2))
        let covMatInv ← npLinalgInv covMatrix
        let dotTmp := vdotF
          (List.zipWith (fun w r => FVal.mul (FVal.fin w) r) sd.weight resid)
          (matVecQ covMatInv resid)
        return FVal.add (FVal.mul (FVal.fin (-(1 / 2 : ℚ))) dotTmp) logVarTerm
      else
        -- branch (c): independent pixels, NaN-aware summation
        let lnlikeTmp : List FVal :=
          List.zipWith (fun wr v =>
            FVal.add
              (FVal.div
                (FVal.mul (FVal.fin (-(1 / 2 : ℚ) * wr.1))
                  (FVal.mul wr.2 wr.2)) v)
              (FVal.mul (FVal.fin (-(1 / 2 : ℚ)))
                (npLog ops.logFin (FVal.mul (FVal.fin (2 * ops.piQ)) v))))
            (sd.weight.zip resid) dataVar
        return FVal.nansum lnlikeTmp

/-- The function `_lnlike_func`: build `all_param`, apply the blackbody and disk
ordering rejections, then accumulate the normal-prior penalties, the
photometric terms and the spectroscopic terms. -/
def lnlikeFunc (ops : RealOps) (cfg : LnlikeCfg) (params : List ℚ) :
    Except PyError FVal :=
  let allParam := allParamOf cfg.cubeIndex cfg.fixParam params
  let p : String → ℚ := fun k => (allParam.lookup k).getD 0
  if (cfg.model = "planck" && 1 < cfg.nPlanck) && planckCheckReject cfg.nPlanck p then
    Except.ok FVal.ninf
  else if diskCheckReject cfg.nDisk p then
    Except.ok FVal.ninf
  else
    let lnPrior : FVal := cfg.normalPrior.foldl (fun acc pr =>
      FVal.add acc
        (FVal.div (FVal.fin (-(1 / 2 : ℚ) * (p pr.1 - pr.2.1) ^ 2))
          (FVal.fin (pr.2.2 ^ 2)))) (FVal.fin 0)
    let lnPhot : FVal := cfg.phot.foldl (fun acc pd =>
      FVal.add acc (photTerm ops allParam pd params)) lnPrior
    cfg.spec.foldlM (fun acc sd =>
      (specContribution ops allParam cfg.cubeIndex sd params).map
        (fun c => FVal.add acc c)) lnPhot

/-! ## Grid-model parameter registry (`FitModel.__init__`, non-`planck`)

For a grid model the source keeps the caller's `bounds` dictionary itself
(`self.bounds = bounds`, line 521) and every later step mutates that one
object in place; the embedding therefore threads a single dictionary
through the pipeline — its final value is what the caller's dictionary
holds after construction. -/

/-- The inputs of the grid-model branch of `FitModel.__init__` that the
registry reads.  `boundsGrid` is `ReadModel.get_bounds()` and the grid
parameter names/order are its keys. Modelled from the spec:
`ReadModel` lives outside the likelihood core; the spec orders the
mandatory grid parameters as effective temperature, surface gravity,
composition, so `teff` comes first.  The embedded configurations carry no
spectra (`inc_spec` empty), so the per-spectrum parameter steps of the
source are quiescent. -/
structure GridCfg where
  boundsGrid : List (String × (ℚ × ℚ))
  userBounds : List (String × BVal)
  normalPrior : List (String × (ℚ × ℚ))
  incPhot : List String
  extFilter : Option String
  objParallax : ℚ × ℚ

/-- The registry outputs: the (caller-aliased) bounds dictionary, the
ordered free-parameter list, the binary flag, the number of disk
components, the fixed-parameter table, the normal priors, and the cube
index. -/
structure GridState where
  bounds : List (String × BVal)
  modelpar : List String
  binary : Bool
  nDisk : ℕ
  fixParam : List (String × ℚ)
  normalPrior : List (String × (ℚ × ℚ))
  cubeIndex : List (String × ℕ)
deriving Repr

/-- The two sequential clips of a bound against the grid extent
(source lines 612–639). -/
def clipRange (lo hi glo ghi : ℚ) : ℚ × ℚ :=
  let lo1 := if lo < glo then glo else lo
  let hi1 := if hi > ghi then ghi else hi
  (lo1, hi1)

/-- One iteration of the mandatory-parameter loop (source lines
593–673): default a missing/`None` bound to the grid extent, split a
pair-of-ranges (or `(None, None)`) bound into `_0`/`_1` entries setting
the binary flag, clip a plain range — and then, still inside the loop,
clip the `_0`/`_1` entries of the current key whenever the binary flag
is set, which raises a `KeyError` when the current key was not split. -/
def gridBoundsStep (st : List (String × BVal) × Bool) (kv : String × (ℚ × ℚ)) :
    Except PyError (List (String × BVal) × Bool) := do
  let key := kv.1
  let grange := kv.2
  let (bounds1, binary1) ←
    match st.1.lookup key with
    | none =>
        Except.ok (dictSet st.1 key (BVal.range grange.1 grange.2), st.2)
    | some BVal.noneV =>
        Except.ok (dictSet st.1 key (BVal.range grange.1 grange.2), st.2)
    | some (BVal.pairRange r0 r1) =>
        Except.ok
          (dictDel (dictSet (dictSet st.1 (key ++ "_0") (BVal.range r0.1 r0.2))
            (key ++ "_1") (BVal.range r1.1 r1.2)) key, true)
    | some (BVal.rlist l) =>
        -- `bounds[key][0]` is a tuple, so a list bound takes the split branch
        match l with
        | r0 :: r1 :: _ =>
            Except.ok
              (dictDel (dictSet (dictSet st.1 (key ++ "_0") (BVal.range r0.1 r0.2))
                (key ++ "_1") (BVal.range r1.1 r1.2)) key, true)
        | _ => Except.error PyError.indexError
    | some BVal.noneNone =>
        Except.ok
          (dictDel (dictSet (dictSet st.1 (key ++ "_0") (BVal.range grange.1 grange.2))
            (key ++ "_1") (BVal.range grange.1 grange.2)) key, true)
    | some (BVal.range lo hi) =>
        let c := clipRange lo hi grange.1 grange.2
        Except.ok (dictSet st.1 key (BVal.range c.1 c.2), st.2)
  if binary1 then
    let clipSuffix : List (String × BVal) → String →
        Except PyError (List (String × BVal)) := fun b sfx => do
      let k := key ++ sfx
      match b.lookup k with
      | none => throw (PyError.keyError k)
      | some (BVal.range lo hi) =>
          let c := clipRange lo hi grange.1 grange.2
          return dictSet b k (BVal.range c.1 c.2)
      | some _ => throw (PyError.typeError k)
    let b0 ← clipSuffix bounds1 "_0"
    let b1 ← clipSuffix b0 "_1"
    return (b1, binary1)
  else
    return (bounds1, binary1)

/-- The fixed-parameter test of source line 1143
(`value[0] == value[1]` with both components non-`None`); when the fix
step runs, every remaining bound of the embedded configurations is a
two-float range (pair and list values have been consumed by the earlier
steps). -/
def fixedValue : BVal → Option ℚ
  | BVal.range a b => if a = b then some a else none
  | _ => none

/-- The fix step (source lines 1139–1154): collect the fixed bounds in
dictionary order, then remove each from the free-parameter list
(`list.remove`: first occurrence) and from the bounds dictionary.
Returns (bounds, modelpar, fixed table). -/
def resolveFixed (bounds : List (String × BVal)) (modelpar : List String) :
    List (String × BVal) × List String × List (String × ℚ) :=
  let delParam := bounds.filterMap (fun kv => (fixedValue kv.2).map (fun v => (kv.1, v)))
  ( delParam.foldl (fun b kv => dictDel b kv.1) bounds
  , delParam.foldl (fun mp kv => mp.erase kv.1) modelpar
  , delParam )

/-- The cube index (source lines 1191–1193): parameter name to position
in the free-parameter list. -/
def cubeIndexOf (modelpar : List String) : List (String × ℕ) :=
  modelpar.enum.map (fun p => (p.2, p.1))

/-- The grid-model branch of `FitModel.__init__` (source lines 587–796,
847–877, 955–977, 1059–1112, 1139–1168, 1189–1193), threading the one
(caller-aliased) bounds dictionary through every step.  `log10Fin` is
the finite branch of `np.log10` (used for the grain-size extinction
bounds). -/
def gridInit (log10Fin : ℚ → ℚ) (cfg : GridCfg) : Except PyError GridState := do
  -- mandatory grid parameters: default / split / clip (lines 593–673)
  let (boundsA, binary) ← cfg.boundsGrid.foldlM gridBoundsStep (cfg.userBounds, false)
  -- line 680: readmodel.get_parameters()
  let modelparA := cfg.boundsGrid.map Prod.fst
  -- lines 682–722: flux scaling, or radius plus parallax
  let (boundsB, modelparB) :=
    if (boundsA.lookup "flux_scaling").isSome then
      (boundsA, modelparA ++ ["flux_scaling"])
    else if (boundsA.lookup "log_flux_scaling").isSome then
      (boundsA, modelparA ++ ["log_flux_scaling"])
    else
      let mp1 := modelparA ++ ["radius"]
      let (b2, mp2) :=
        if binary then
          let (b2a, mp2a) :=
            match boundsA.lookup "parallax" with
            | some (BVal.pairRange r0 r1) =>
                ( dictDel (dictSet (dictSet boundsA "parallax_0"
                    (BVal.range r0.1 r0.2)) "parallax_1" (BVal.range r1.1 r1.2))
                    "parallax"
                , mp1 ++ ["parallax_0", "parallax_1"] )
            | _ => (boundsA, mp1)
          let mp2b :=
            if (cfg.normalPrior.lookup "parallax_0").isSome then
              mp2a ++ ["parallax_0"] else mp2a
          let mp2c :=
            if (cfg.normalPrior.lookup "parallax_1").isSome then
              mp2b ++ ["parallax_1"] else mp2b
          match b2a.lookup "ism_ext" with
          | some (BVal.pairRange r0 r1) =>
              ( dictDel (dictSet (dictSet b2a "ism_ext_0"
                  (BVal.range r0.1 r0.2)) "ism_ext_1" (BVal.range r1.1 r1.2))
                  "ism_ext"
              , mp2c ++ ["ism_ext_0", "ism_ext_1"] )
          | _ => (b2a, mp2c)
        else (boundsA, mp1)
      let mp3 :=
        if !(mp2.contains "parallax_0") || !(mp2.contains "parallax_1") then
          mp2 ++ ["parallax"]
        else mp2
      (b2, mp3)
  -- lines 724–725: flux offset
  let modelparC :=
    if (boundsB.lookup "flux_offset").isSome then modelparB ++ ["flux_offset"]
    else modelparB
  -- lines 729–740: radius bound default / binary radius split
  let boundsC :=
    if binary then
      match boundsB.lookup "radius" with
      | some (BVal.pairRange r0 r1) =>
          dictDel (dictSet (dictSet boundsB "radius_0" (BVal.range r0.1 r0.2))
            "radius_1" (BVal.range r1.1 r1.2)) "radius"
      | some _ => boundsB
      | none => dictSet boundsB "radius" (BVal.range (1 / 2) 5)
    else if (boundsB.lookup "radius").isNone && modelparC.contains "radius" then
      dictSet boundsB "radius" (BVal.range (1 / 2) 5)
    else boundsB
  -- lines 744–775: blackbody disk components
  let (boundsD, modelparD, nDisk) ←
    if (boundsC.lookup "disk_teff").isSome && (boundsC.lookup "disk_radius").isSome then
      match boundsC.lookup "disk_teff", boundsC.lookup "disk_radius" with
      | some (BVal.rlist lt), some (BVal.rlist lr) =>
          ((List.range lt.length).foldlM
            (fun (st : List (String × BVal) × List String) i =>
              match lr.get? i with
              | none => Except.error PyError.indexError
              | some rr =>
                  let rt := lt.getD i (0, 0)
                  Except.ok ( dictSet (dictSet st.1 (s!"disk_teff_{i}")
                      (BVal.range rt.1 rt.2)) (s!"disk_radius_{i}")
                      (BVal.range rr.1 rr.2)
                  , st.2 ++ [s!"disk_teff_{i}", s!"disk_radius_{i}"] ))
            ((boundsC, modelparC) : List (String × BVal) × List String)).map
            (fun (bmp : List (String × BVal) × List String) =>
              (dictDel (dictDel bmp.1 "disk_teff") "disk_radius",
                bmp.2, lt.length))
      | _, _ =>
          pure (boundsC, modelparC ++ ["disk_teff", "disk_radius"], 1)
    else
      pure (boundsC, modelparC, 0)
  -- lines 779–796: binary renaming of the free-parameter list, spec_weight
  let modelparE :=
    if binary then
      boundsD.foldl (fun mp kv =>
        let base := kv.1.dropRight 2
        if mp.contains base then
          let i := mp.indexOf base
          (mp.set i (base ++ "_0")).insertIdx i (base ++ "_1")
        else mp) modelparD
    else modelparD
  let (boundsE, modelparF) :=
    if binary && modelparE.contains "radius" then
      ( if (boundsD.lookup "spec_weight").isNone then
          dictSet boundsD "spec_weight" (BVal.range 0 1)
        else boundsD
      , modelparE ++ ["spec_weight"] )
    else (boundsD, modelparE)
  -- lines 847–877: per-filter / per-instrument error inflation parameters
  let modelparG := cfg.incPhot.foldl (fun mp f =>
    let instrFilt := (f.splitOn ".").headD f
    if (boundsE.lookup (f ++ "_error")).isSome then mp ++ [f ++ "_error"]
    else if (boundsE.lookup (instrFilt ++ "_error")).isSome
        && !(mp.contains (instrFilt ++ "_error")) then
      mp ++ [instrFilt ++ "_error"]
    else mp) modelparF
  -- lines 955–977: global rotational broadening and radial velocity
  let modelparH :=
    if (boundsE.lookup "vsini").isSome then modelparG ++ ["vsini"] else modelparG
  let modelparI :=
    if (boundsE.lookup "rad_vel").isSome then modelparH ++ ["rad_vel"] else modelparH
  -- lines 1059–1101: extinction parameters
  let (boundsF, modelparJ) ←
    if (boundsE.lookup "lognorm_radius").isSome
        && (boundsE.lookup "lognorm_sigma").isSome
        && (boundsE.lookup "lognorm_ext").isSome then
      let b :=
        match boundsE.lookup "lognorm_radius" with
        | some (BVal.range lo hi) =>
            dictSet boundsE "lognorm_radius" (BVal.range (log10Fin lo) (log10Fin hi))
        | _ => boundsE
      pure (b, modelparI ++ ["lognorm_radius", "lognorm_sigma", "lognorm_ext"])
    else if (boundsE.lookup "powerlaw_max").isSome
        && (boundsE.lookup "powerlaw_exp").isSome
        && (boundsE.lookup "powerlaw_ext").isSome then
      let b :=
        match boundsE.lookup "powerlaw_max" with
        | some (BVal.range lo hi) =>
            dictSet boundsE "powerlaw_max" (BVal.range (log10Fin lo) (log10Fin hi))
        | _ => boundsE
      pure (b, modelparI ++ ["powerlaw_max", "powerlaw_exp", "powerlaw_ext"])
    else if (boundsE.lookup "ism_ext").isSome
        || (cfg.normalPrior.lookup "ism_ext").isSome then do
      let (b, mp) ←
        match cfg.extFilter with
        | some f =>
            match boundsE.lookup "ism_ext" with
            | some v =>
                pure ( dictDel (dictSet boundsE ("phot_ext_" ++ f) v) "ism_ext"
                     , modelparI ++ ["phot_ext_" ++ f] )
            | none => throw (PyError.keyError "ism_ext")
        | none => pure (boundsE, modelparI ++ ["ism_ext"])
      if (b.lookup "ism_red").isSome || (cfg.normalPrior.lookup "ism_red").isSome then
        pure (b, mp ++ ["ism_red"])
      else
        pure (b, mp)
    else
      pure (boundsE, modelparI)
  -- lines 1105–1112: veiling parameters
  let modelparK :=
    if (boundsF.lookup "veil_a").isSome then modelparJ ++ ["veil_a"] else modelparJ
  let modelparL :=
    if (boundsF.lookup "veil_b").isSome then modelparK ++ ["veil_b"] else modelparK
  let modelparM :=
    if (boundsF.lookup "veil_ref").isSome then modelparL ++ ["veil_ref"] else modelparL
  -- lines 1139–1154: fixed parameters
  let (boundsG, modelparN, fixParam) := resolveFixed boundsF modelparM
  -- lines 1163–1168: automatic parallax normal prior
  let normalPriorF :=
    if modelparN.contains "parallax" && (fixParam.lookup "parallax").isNone
        && (boundsG.lookup "parallax").isNone then
      dictSet cfg.normalPrior "parallax" cfg.objParallax
    else cfg.normalPrior
  -- lines 1189–1193: cube index
  return { bounds := boundsG
         , modelpar := modelparN
         , binary := binary
         , nDisk := nDisk
         , fixParam := fixParam
         , normalPrior := normalPriorF
         , cubeIndex := cubeIndexOf modelparN }

/-- Appending the fixed parameters to the posterior samples after a run
(source lines 2300–2308 of `run_multinest`; `run_ultranest` and
`run_dynesty` repeat the same step): each fixed parameter name is
appended to the parameter list and its constant value is appended as a
column to the sample matrix. -/
def appendFixedToSamples (fixParam : List (String × ℚ)) (modelpar : List String)
    (samples : List (List ℚ)) : List String × List (List ℚ) :=
  fixParam.foldl (fun st kv =>
    (st.1 ++ [kv.1], st.2.map (fun row => row ++ [kv.2]))) (modelpar, samples)

/-! ## Concrete configurations used by the claims -/

/-- The C6 scenario: `model='planck'` with two blackbody components,
`teff = [(1000, 1400), (1200, 1600)]` and
`radius = [(0.8, 1.5), (1.2, 2.0)]`. -/
def planckTwoSetup : PlanckSetup :=
  planckInit [(1000, 1400), (1200, 1600)] [(4/5, 3/2), (6/5, 2)]

/-- The `FitModel` state of the C6 scenario as read by `_lnlike_func`:
the cube index enumerates the planck parameter list; one photometric
point keeps the configuration a valid fit. -/
def planckLnlikeCfg : LnlikeCfg :=
  { model := "planck", nPlanck := 2, nDisk := 0
  , cubeIndex := cubeIndexOf planckTwoSetup.modelpar
  , fixParam := [], normalPrior := []
  , phot := [⟨"GenericP.F", "GenericP", 1, 1/10, 1, fun _ => FVal.fin 1⟩]
  , spec := [] }

/-- A single-blackbody-disk fit (C1): one disk component next to a grid
atmosphere, one photometric point whose forward-model flux matches the
data exactly. -/
def diskOneCfg : LnlikeCfg :=
  { model := "bt-settl", nPlanck := 0, nDisk := 1
  , cubeIndex := [("teff", 0), ("radius", 1), ("parallax", 2),
      ("disk_teff", 3), ("disk_radius", 4)]
  , fixParam := [], normalPrior := []
  , phot := [⟨"GenericP.F", "GenericP", 1, 1, 1, fun _ => FVal.fin 1⟩]
  , spec := [] }

/-- A photometric fit whose forward model hands the likelihood a NaN
flux, e.g. after a failed resampling in the collaborator modules (C2). -/
def nanPhotCfg : LnlikeCfg :=
  { model := "bt-settl", nPlanck := 0, nDisk := 0
  , cubeIndex := [("teff", 0)], fixParam := [], normalPrior := []
  , phot := [⟨"GenericP.F", "GenericP", 1, 1/10, 1, fun _ => FVal.nan⟩]
  , spec := [] }

/-- A two-pixel spectrum in the independent-pixel branch whose forward
model produces a NaN in the second pixel (C2). -/
def branchCSpec : SpecDataE :=
  { name := "SP", wavel := [1, 2], flux := [1, 1], err := [1, 1]
  , cov := none, covInv := none, fitCorr := false, weight := [1, 1]
  , modelFlux := fun _ => [FVal.fin 1, FVal.nan] }

/-- A spectrum fit in the independent-pixel branch built on
`branchCSpec` (C2). -/
def branchCCfg : LnlikeCfg :=
  { model := "bt-settl", nPlanck := 0, nDisk := 0
  , cubeIndex := [("teff", 0)], fixParam := [], normalPrior := []
  , phot := []
  , spec := [branchCSpec] }

/-- A spectrum fit with a supplied covariance matrix that is singular
(`[[1, 1], [1, 1]]`) and a fitted error-inflation parameter `error_SP`,
so the likelihood inverts the inflated covariance (C7). -/
def singularCovCfg : LnlikeCfg :=
  { model := "bt-settl", nPlanck := 0, nDisk := 0
  , cubeIndex := [("teff", 0), ("error_SP", 1)], fixParam := [], normalPrior := []
  , phot := []
  , spec := [ { name := "SP", wavel := [1, 2], flux := [1, 1], err := [1, 1]
              , cov := some [[1, 1], [1, 1]], covInv := some [[2, -1], [-1, 2]]
              , fitCorr := false, weight := [1, 1]
              , modelFlux := fun _ => [FVal.fin 0, FVal.fin 0] } ] }

/-- The C10 scenario: a grid model with mandatory parameters
`teff`/`logg`, a user `teff` bound reaching past the grid extent on both
sides, a fixed `logg`, one photometric filter. -/
def gridDemoCfg : GridCfg :=
  { boundsGrid := [("teff", (1000, 1500)), ("logg", (3, 6))]
  , userBounds := [("teff", BVal.range 900 1600), ("logg", BVal.range 4 4)]
  , normalPrior := []
  , incPhot := ["GenericP.F"]
  , extFilter := none
  , objParallax := (10, 1) }

/-- The C4 scenario: a grid model with mandatory parameters
`teff`/`logg` (in the order the spec gives for mandatory grid
parameters) and a user bound requesting a binary split of `teff` only,
`bounds={'teff': ((1000, 1500), (1300, 1800))}`. -/
def binarySplitCfg : GridCfg :=
  { boundsGrid := [("teff", (500, 3000)), ("logg", (3, 6))]
  , userBounds := [("teff", BVal.pairRange (1000, 1500) (1300, 1800))]
  , normalPrior := []
  , incPhot := ["GenericP.F"]
  , extFilter := none
  , objParallax := (10, 1) }

/-! ## Shared helper lemmas -/

theorem zip_getElem?_eq {α β : Type} (l₁ : List α) (l₂ : List β) (i : ℕ)
    (a : α) (b : β) (h₁ : l₁[i]? = some a) (h₂ : l₂[i]? = some b) :
    (l₁.zip l₂)[i]? = some (a, b) := by
  induction l₁ generalizing l₂ i with
  | nil => simp at h₁
  | cons x xs ih =>
      cases l₂ with
      | nil => simp at h₂
      | cons y ys =>
          cases i with
          | zero => simp_all
          | succ n =>
              simp only [List.getElem?_cons_succ] at h₁ h₂
              simpa using ih ys n h₁ h₂

theorem mem_zipWith_cases {α β γ : Type} {f : α → β → γ} {l₁ : List α}
    {l₂ : List β} {x : γ} (hx : x ∈ List.zipWith f l₁ l₂) :
    ∃ a b, a ∈ l₁ ∧ b ∈ l₂ ∧ x = f a b := by
  induction l₁ generalizing l₂ with
  | nil => simp at hx
  | cons a as ih =>
      cases l₂ with
      | nil => simp at hx
      | cons b bs =>
          rcases List.mem_cons.mp hx with h | h
          · exact ⟨a, b, List.mem_cons_self _ _, List.mem_cons_self _ _, h⟩
          · obtain ⟨a0, b0, ha, hb, hf⟩ := ih h
            exact ⟨a0, b0, List.mem_cons_of_mem _ ha, List.mem_cons_of_mem _ hb, hf⟩

/-- A `np.nansum` of a list of finite-or-NaN values is finite. -/
theorem nansum_fin_of_forall (l : List FVal)
    (h : ∀ x ∈ l, (∃ q, x = FVal.fin q) ∨ x = FVal.nan) :
    ∃ q, FVal.nansum l = FVal.fin q := by
  suffices hgen : ∀ (acc : ℚ),
      ∃ q, l.foldl (fun acc x => FVal.add acc (if x.isNaN then FVal.fin 0 else x))
        (FVal.fin acc) = FVal.fin q from hgen 0
  induction l with
  | nil => exact fun acc => ⟨acc, rfl⟩
  | cons x xs ih =>
      intro acc
      rcases h x (List.mem_cons_self _ _) with ⟨q, rfl⟩ | rfl
      · simpa [FVal.isNaN, FVal.add] using
          ih (fun y hy => h y (List.mem_cons_of_mem _ hy)) (acc + q)
      · simpa [FVal.isNaN, FVal.add] using
          ih (fun y hy => h y (List.mem_cons_of_mem _ hy)) (acc + 0)

/-- The gate of `_lnlike_func`: when the multi-component blackbody check
fires, the function returns `-inf` before any further evaluation. -/
theorem lnlike_planck_gate_ninf (ops : RealOps) (cfg : LnlikeCfg) (params : List ℚ)
    (h : ((decide (cfg.model = "planck") && decide (1 < cfg.nPlanck)) &&
      planckCheckReject cfg.nPlanck (fun k =>
        ((allParamOf cfg.cubeIndex cfg.fixParam params).lookup k).getD 0)) = true) :
    lnlikeFunc ops cfg params = Except.ok FVal.ninf := by
  unfold lnlikeFunc
  simp only [h, if_true]

/-- The gate of `_lnlike_func`: when the disk ordering check fires, the
function returns `-inf` before any further evaluation. -/
theorem lnlike_disk_gate_ninf (ops : RealOps) (cfg : LnlikeCfg) (params : List ℚ)
    (h : diskCheckReject cfg.nDisk (fun k =>
        ((allParamOf cfg.cubeIndex cfg.fixParam params).lookup k).getD 0) = true) :
    lnlikeFunc ops cfg params = Except.ok FVal.ninf := by
  unfold lnlikeFunc
  rcases hc : ((decide (cfg.model = "planck") && decide (1 < cfg.nPlanck)) &&
      planckCheckReject cfg.nPlanck (fun k =>
        ((allParamOf cfg.cubeIndex cfg.fixParam params).lookup k).getD 0)) with _ | _
  · simp only [hc, h, if_true, Bool.false_eq_true, if_false]
  · simp only [hc, if_true]

/-! ## Claim C3 -/

/-- C3: for every free parameter, `_prior_transform` computes the
reference definition: a parameter with a normal prior is mapped with the
inverse standard-normal CDF scaled by `(mean, sigma)` — the normal prior
taking precedence regardless of whether the parameter also has uniform
bounds — and any other parameter is mapped with the affine map
`lo + (hi - lo) * u` exactly, so that for uniform bounds the transform
sends `u = 0` to `lo` and `u = 1` to `hi`. -/
theorem claim_C3_prior_transform (ppfStd : ℚ → ℚ) (s : PriorSetup)
    (cube : List ℚ) (i : ℕ) (p : String) (u : ℚ)
    (hp : s.modelpar[i]? = some p) (hu : cube[i]? = some u) :
    (∀ m sg, s.normalPrior.lookup p = some (m, sg) →
      (priorTransform ppfStd s cube)[i]? = some (m + sg * ppfStd u)) ∧
    (s.normalPrior.lookup p = none →
      ∀ lo hi, s.bounds.lookup p = some (lo, hi) →
        (priorTransform ppfStd s cube)[i]? = some (lo + (hi - lo) * u) ∧
        (u = 0 → (priorTransform ppfStd s cube)[i]? = some lo) ∧
        (u = 1 → (priorTransform ppfStd s cube)[i]? = some hi)) := by
  have hzip : (s.modelpar.zip cube)[i]? = some (p, u) :=
    zip_getElem?_eq _ _ _ _ _ hp hu
  constructor
  · intro m sg hn
    simp [priorTransform, hzip, hn]
  · intro hn lo hi hb
    refine ⟨by simp [priorTransform, hzip, hn, hb], ?_, ?_⟩
    · rintro rfl
      simp [priorTransform, hzip, hn, hb]
    · rintro rfl
      simp [priorTransform, hzip, hn, hb]

/-- Witness for C3 at a concrete setup: a uniform `teff` parameter at
`u = 1/4` lands at `lo + (hi - lo)/4`, the `u = 0` and `u = 1` corners
land at the bounds, and a normal-prior `parallax` parameter is mapped
through the scaled inverse CDF. -/
theorem claim_C3_prior_transform_witness :
    (priorTransform (fun q => q)
        ⟨["teff", "parallax"], [("teff", (1000, 2000))], [("parallax", (10, 2))]⟩
        [(1 : ℚ)/4, 1/2])[0]? = some 1250 ∧
    (priorTransform (fun q => q)
        ⟨["teff", "parallax"], [("teff", (1000, 2000))], [("parallax", (10, 2))]⟩
        [(0 : ℚ), 1/2])[0]? = some 1000 ∧
    (priorTransform (fun q => q)
        ⟨["teff", "parallax"], [("teff", (1000, 2000))], [("parallax", (10, 2))]⟩
        [(1 : ℚ), 1/2])[0]? = some 2000 ∧
    (priorTransform (fun q => q)
        ⟨["teff", "parallax"], [("teff", (1000, 2000))], [("parallax", (10, 2))]⟩
        [(1 : ℚ)/4, 1/2])[1]? = some 11 := by
  refine ⟨?_, ?_, ?_, ?_⟩
  · have h := (claim_C3_prior_transform (fun q => q)
      ⟨["teff", "parallax"], [("teff", (1000, 2000))], [("parallax", (10, 2))]⟩
      [(1 : ℚ)/4, 1/2] 0 "teff" (1/4) rfl rfl).2 rfl 1000 2000 rfl
    have := h.1
    norm_num at this ⊢
    exact this
  · have h := (claim_C3_prior_transform (fun q => q)
      ⟨["teff", "parallax"], [("teff", (1000, 2000))], [("parallax", (10, 2))]⟩
      [(0 : ℚ), 1/2] 0 "teff" 0 rfl rfl).2 rfl 1000 2000 rfl
    exact h.2.1 rfl
  · have h := (claim_C3_prior_transform (fun q => q)
      ⟨["teff", "parallax"], [("teff", (1000, 2000))], [("parallax", (10, 2))]⟩
      [(1 : ℚ), 1/2] 0 "teff" 1 rfl rfl).2 rfl 1000 2000 rfl
    exact h.2.2 rfl
  · have h := (claim_C3_prior_transform (fun q => q)
      ⟨["teff", "parallax"], [("teff", (1000, 2000))], [("parallax", (10, 2))]⟩
      [(1 : ℚ)/4, 1/2] 1 "parallax" (1/2) rfl rfl).1 10 2 rfl
    norm_num at h ⊢
    exact h

/-! ## Claim C8 -/

/-- C8: `FitModel` construction fails before any sampling starts when
neither photometric nor spectroscopic data are selected, and when
`model='planck'` is requested without both `teff` and `radius` in the
bounds dictionary. -/
theorem claim_C8_init_checks (model : String)
    (bounds : Option (List (String × BVal))) (incPhot incSpec : IncData) :
    (incDataEmpty incPhot = true → incDataEmpty incSpec = true →
      ∃ e, initChecks model bounds incPhot incSpec = Except.error e) ∧
    (model = "planck" → ∀ bs, bounds = some bs →
      (bs.lookup "teff" = none ∨ bs.lookup "radius" = none) →
      ∃ e, initChecks model bounds incPhot incSpec = Except.error e) := by
  constructor
  · intro h1 h2
    refine ⟨PyError.valueError
      "No photometric or spectroscopic data has been selected.", ?_⟩
    have hc : (incDataEmpty incPhot && incDataEmpty incSpec) = true := by
      simp [h1, h2]
    simp only [initChecks, hc, if_true]
    rfl
  · rintro rfl bs rfl hmiss
    rcases hdat : (incDataEmpty incPhot && incDataEmpty incSpec) with _ | _
    · refine ⟨PyError.valueError
        "The bounds dictionary should contain teff and radius.", ?_⟩
      have hmiss1 : ((bs.lookup "teff").isNone || (bs.lookup "radius").isNone) = true := by
        rcases hmiss with h | h <;> simp [h]
      simp only [initChecks, hdat, Bool.false_eq_true, if_false, hmiss1, if_true]
      rfl
    · refine ⟨PyError.valueError
        "No photometric or spectroscopic data has been selected.", ?_⟩
      simp only [initChecks, hdat, if_true]
      rfl

/-- Witness for C8: with no data selected construction fails, and with
data selected but `model='planck'` missing the `teff` bound it also
fails. -/
theorem claim_C8_init_checks_witness :
    (∃ e, initChecks "planck" (some [("radius", BVal.range 1 2)])
      (IncData.names []) (IncData.flag false) = Except.error e) ∧
    (∃ e, initChecks "planck" (some [("radius", BVal.range 1 2)])
      (IncData.names ["PhotF.b"]) (IncData.flag true) = Except.error e) :=
  ⟨(claim_C8_init_checks "planck" (some [("radius", BVal.range 1 2)])
      (IncData.names []) (IncData.flag false)).1 rfl rfl,
   (claim_C8_init_checks "planck" (some [("radius", BVal.range 1 2)])
      (IncData.names ["PhotF.b"]) (IncData.flag true)).2 rfl _ rfl
      (Or.inl (by decide))⟩

/-! ## Claim C9 -/

/-- C9 (implicit): the log-likelihood callable handed to UltraNest never
returns a non-finite value — whenever `_lnlike_func` produces `-inf` (or
any non-finite result, NaN and `+inf` included), the wrapper returns
exactly `-1.0e100`, so the engine-facing interface satisfies a clamped
variant of the finite-or-`-inf` contract. -/
theorem claim_C9_ultranest_clamp (x : FVal) :
    (lnlikeUltranest x).npIsFinite = true ∧
    (x.npIsFinite = false → lnlikeUltranest x = FVal.fin (-(10 ^ 100 : ℚ))) := by
  cases x <;> simp [lnlikeUltranest, FVal.npIsFinite]

/-- Witness for C9 at `-inf`: the wrapper output is finite and equals
`-1e100`. -/
theorem claim_C9_ultranest_clamp_witness :
    (lnlikeUltranest FVal.ninf).npIsFinite = true ∧
    lnlikeUltranest FVal.ninf = FVal.fin (-(10 ^ 100 : ℚ)) :=
  ⟨(claim_C9_ultranest_clamp FVal.ninf).1,
   (claim_C9_ultranest_clamp FVal.ninf).2 rfl⟩

/-! ## Claim C6 -/

/-- C6: with `model='planck'` and two blackbody components
(`teff = [(1000, 1400), (1200, 1600)]`,
`radius = [(0.8, 1.5), (1.2, 2.0)]`) the registry produces exactly the
free-parameter list `[teff_0, radius_0, teff_1, radius_1, parallax]` in
that order, each component carrying its own bound, and `_lnlike_func`
returns `-inf` for every sampled point with `teff_1 > teff_0` or
`radius_0 > radius_1`. -/
theorem claim_C6_planck_two_components (ops : RealOps) (t0 r0 t1 r1 plx : ℚ)
    (h : t1 > t0 ∨ r0 > r1) :
    planckTwoSetup.modelpar =
      ["teff_0", "radius_0", "teff_1", "radius_1", "parallax"] ∧
    planckTwoSetup.bounds =
      [("teff_0", BVal.range 1000 1400), ("radius_0", BVal.range (4/5) (3/2)),
       ("teff_1", BVal.range 1200 1600), ("radius_1", BVal.range (6/5) 2)] ∧
    lnlikeFunc ops planckLnlikeCfg [t0, r0, t1, r1, plx] = Except.ok FVal.ninf := by
  refine ⟨by with_unfolding_all rfl, by with_unfolding_all rfl, ?_⟩
  apply lnlike_planck_gate_ninf
  have hshape : ((decide (planckLnlikeCfg.model = "planck")
        && decide (1 < planckLnlikeCfg.nPlanck)) &&
      planckCheckReject planckLnlikeCfg.nPlanck (fun k =>
        ((allParamOf planckLnlikeCfg.cubeIndex planckLnlikeCfg.fixParam
          [t0, r0, t1, r1, plx]).lookup k).getD 0))
      = (decide (t0 < t1) || decide (r1 < r0) || false) := rfl
  rw [hshape]
  rcases h with h | h <;> simp [h]

/-- Witness for C6 at a concrete rejected point: `teff_1 = 1100` above
`teff_0 = 1000`. -/
theorem claim_C6_planck_two_components_witness :
    planckTwoSetup.modelpar =
      ["teff_0", "radius_0", "teff_1", "radius_1", "parallax"] ∧
    planckTwoSetup.bounds =
      [("teff_0", BVal.range 1000 1400), ("radius_0", BVal.range (4/5) (3/2)),
       ("teff_1", BVal.range 1200 1600), ("radius_1", BVal.range (6/5) 2)] ∧
    lnlikeFunc defOps planckLnlikeCfg [1000, 1, 1100, 2, 10] = Except.ok FVal.ninf :=
  claim_C6_planck_two_components defOps 1000 1 1100 2 10 (Or.inl (by norm_num))

/-! ## Claim C1 -/

/-- C1 (code bug): the claim says that with a single disk component
(`n_disk == 1`) a sample whose `disk_teff` lies above the atmosphere
`teff` or whose `disk_radius` lies below the atmosphere `radius` gets
log-likelihood `-inf`.  The source instead compares
`all_param["disk_teff"]` and `all_param["disk_radius"]` with themselves
(lines 1387–1392), so the single-disk rejection never fires: the check
is vacuous for every parameter assignment, and at the concrete violating
sample (`teff = 1200`, `radius = 1`, `disk_teff = 5000`,
`disk_radius = 0.01`) `_lnlike_func` proceeds to return the ordinary
finite likelihood instead of `-inf`. -/
theorem claim_C1_single_disk_check_vacuous :
    (∀ p : String → ℚ, diskCheckReject 1 p = false) ∧
    lnlikeFunc defOps diskOneCfg [1200, 1, 10, 5000, 1/100] =
      Except.ok (FVal.fin 0) ∧
    (FVal.fin 0 ≠ FVal.ninf) := by
  refine ⟨?_, ?_, by decide⟩
  · intro p
    simp [diskCheckReject]
  · with_unfolding_all rfl

/-! ## Claim C2 -/

/-- C2 (counterexample): `_lnlike_func` can return NaN.  With one
photometric point whose forward-model flux is NaN (e.g. produced by a
failed resampling in the collaborator modules), the photometric
accumulation of source lines 1705–1713 uses plain addition, not
NaN-aware summation, and the NaN reaches the returned total.  The
stand-in realization `defOps` is irrelevant here: NaN absorbs every
operation the term passes through. -/
theorem claim_C2_counterexample :
    lnlikeFunc defOps nanPhotCfg [1200] = Except.ok FVal.nan ∧
    FVal.nan.npIsFinite = false ∧ FVal.nan ≠ FVal.ninf := by
  refine ⟨?_, by decide, by decide⟩
  with_unfolding_all rfl

/-- In the independent-pixel branch (no stored covariance, no
Gaussian-process flag) the per-pixel terms are accumulated with
`np.nansum`, so pixels whose forward-model flux is NaN are excluded and
the contribution of the spectrum is a finite value whenever the
remaining inputs are finite with nonzero uncertainties. -/
theorem specContribution_branchC_fin (ops : RealOps) (allParam : List (String × ℚ))
    (cubeIndex : List (String × ℕ)) (sd : SpecDataE) (params : List ℚ)
    (hcovInv : sd.covInv = none) (hfit : sd.fitCorr = false)
    (hoff : cubeIndex.lookup "flux_offset" = none)
    (herr : allParam.lookup ("error_" ++ sd.name) = none)
    (hpi : 0 < ops.piQ)
    (herrpos : ∀ s ∈ sd.err, s ≠ 0)
    (hflux : ∀ x ∈ sd.modelFlux params, (∃ q, x = FVal.fin q) ∨ x = FVal.nan) :
    ∃ q, specContribution ops allParam cubeIndex sd params = Except.ok (FVal.fin q) := by
  unfold specContribution
  simp only [hcovInv, hfit, hoff, herr, Option.isSome_none, Bool.false_eq_true,
    if_false, ite_false]
  suffices h : ∃ q, FVal.nansum (List.zipWith
      (fun wr v =>
        (((FVal.fin (-(1 / 2) * wr.1)).mul (wr.2.mul wr.2)).div v).add
          ((FVal.fin (-(1 / 2))).mul (npLog ops.logFin ((FVal.fin (2 * ops.piQ)).mul v))))
      (sd.weight.zip
        (List.zipWith (fun d m => (FVal.fin d).sub m)
          (List.map
            (fun f =>
              (match List.lookup ("scaling_" ++ sd.name) allParam with
                | some v => v
                | none => 1) * f)
            sd.flux)
          (sd.modelFlux params)))
      (List.map (fun s => FVal.fin (s ^ 2)) sd.err)) = FVal.fin q by
    obtain ⟨q, hq⟩ := h
    exact ⟨q, by rw [hq]; rfl⟩
  apply nansum_fin_of_forall
  intro x hx
  obtain ⟨wr, v, hwr, hv, rfl⟩ := mem_zipWith_cases hx
  obtain ⟨s, hs, rfl⟩ := List.mem_map.mp hv
  have hs2 : s ^ 2 ≠ 0 := pow_ne_zero 2 (herrpos s hs)
  have hs2pos : 0 < s ^ 2 := pow_two_pos_of_ne_zero (herrpos s hs)
  have hpos : 0 < 2 * ops.piQ * s ^ 2 :=
    mul_pos (mul_pos (by norm_num) hpi) hs2pos
  obtain ⟨w, r⟩ := wr
  have hr : r ∈ List.zipWith (fun d m => (FVal.fin d).sub m)
      (List.map (fun f =>
        (match List.lookup ("scaling_" ++ sd.name) allParam with
          | some v => v
          | none => 1) * f) sd.flux)
      (sd.modelFlux params) := (List.of_mem_zip hwr).2
  obtain ⟨d, m, _, hm, rfl⟩ := mem_zipWith_cases hr
  rcases hflux m hm with ⟨qm, rfl⟩ | rfl
  · refine Or.inl ?_
    simp [FVal.sub, FVal.neg, FVal.add, FVal.mul, FVal.div, npLog, hs2, hpos]
  · refine Or.inr ?_
    simp [FVal.sub, FVal.neg, FVal.add, FVal.mul, FVal.div]

/-- Evaluating `_lnlike_func` on a configuration with a single spectrum and no
photometry or priors returns exactly the spectroscopic contribution. -/
theorem lnlikeFunc_single_spec (ops : RealOps) (cfg : LnlikeCfg) (params : List ℚ)
    (sd : SpecDataE) (q : ℚ)
    (hmodel : cfg.model ≠ "planck") (hdisk : cfg.nDisk = 0)
    (hprior : cfg.normalPrior = []) (hphot : cfg.phot = [])
    (hspec : cfg.spec = [sd])
    (hc : specContribution ops (allParamOf cfg.cubeIndex cfg.fixParam params)
      cfg.cubeIndex sd params = Except.ok (FVal.fin q)) :
    lnlikeFunc ops cfg params = Except.ok (FVal.fin q) := by
  unfold lnlikeFunc
  have h1 : decide (cfg.model = "planck") = false := by simp [hmodel]
  simp only [h1, Bool.false_and, Bool.false_eq_true, if_false, hdisk, hprior,
    hphot, hspec, List.foldl_nil, List.foldlM_cons, List.foldlM_nil, hc,
    diskCheckReject, Except.map, Except.bind, bind, pure]
  simp [FVal.add, Except.pure]

/-- C2 (amended): NaN-aware summation protects the returned total only
in the independent-pixel spectroscopic branch: there, NaN-producing
pixels are excluded via `np.nansum` and the log-likelihood of a spectrum
with otherwise finite data and nonzero uncertainties is a finite value.
(The photometric terms and the covariance-branch quadratic forms use
plain summation, so a NaN there propagates into the returned total — see
the counterexample.) -/
theorem claim_C2_amended (ops : RealOps) (cfg : LnlikeCfg) (params : List ℚ)
    (sd : SpecDataE)
    (hmodel : cfg.model ≠ "planck") (hdisk : cfg.nDisk = 0)
    (hprior : cfg.normalPrior = []) (hphot : cfg.phot = [])
    (hspec : cfg.spec = [sd])
    (hcovInv : sd.covInv = none) (hfit : sd.fitCorr = false)
    (hoff : cfg.cubeIndex.lookup "flux_offset" = none)
    (herr : (allParamOf cfg.cubeIndex cfg.fixParam params).lookup
      ("error_" ++ sd.name) = none)
    (hpi : 0 < ops.piQ)
    (herrpos : ∀ s ∈ sd.err, s ≠ 0)
    (hflux : ∀ x ∈ sd.modelFlux params, (∃ q, x = FVal.fin q) ∨ x = FVal.nan) :
    ∃ q, lnlikeFunc ops cfg params = Except.ok (FVal.fin q) := by
  obtain ⟨q, hq⟩ := specContribution_branchC_fin ops
    (allParamOf cfg.cubeIndex cfg.fixParam params) cfg.cubeIndex sd params
    hcovInv hfit hoff herr hpi herrpos hflux
  exact ⟨q, lnlikeFunc_single_spec ops cfg params sd q hmodel hdisk hprior
    hphot hspec hq⟩

/-- Witness for the amended C2 at a concrete two-pixel spectrum whose
second forward-model pixel is NaN: the total is finite. -/
theorem claim_C2_amended_witness :
    ∃ q, lnlikeFunc defOps branchCCfg [1200] = Except.ok (FVal.fin q) :=
  claim_C2_amended defOps branchCCfg [1200] branchCSpec
    (by decide) rfl rfl rfl rfl rfl rfl (by decide) (by decide)
    (by norm_num [defOps])
    (by intro s hs; simp [branchCSpec] at hs; subst hs; norm_num)
    (by
      intro x hx
      simp [branchCSpec] at hx
      rcases hx with rfl | rfl
      · exact Or.inl ⟨1, rfl⟩
      · exact Or.inr rfl)

/-! ## Claim C7 -/

/-- C7 (code bug): the claim says a singular covariance matrix at a
sampled point yields log-likelihood `-inf`.  The source calls
`np.linalg.inv` (lines 1969 and 2012) with no exception handling, so at
a sample where the inflated supplied covariance is singular
(`cov = [[1, 1], [1, 1]]` with the `error_SP` inflation parameter
fitted) `_lnlike_func` raises `LinAlgError` instead of returning
`-inf`. -/
theorem claim_C7_singular_cov_raises :
    lnlikeFunc defOps singularCovCfg [1200, 1] = Except.error PyError.linAlgError ∧
    (∀ e : PyError, (Except.error e : Except PyError FVal) ≠ Except.ok FVal.ninf) := by
  constructor
  · with_unfolding_all rfl
  · intro e h
    exact Except.noConfusion h

/-! ## Claim C10 -/

/-- C10 (implicit, frame effect): for a non-`planck` grid model the
constructor stores the caller's `bounds` dictionary by reference
(`self.bounds = bounds`, source line 521) and every later registry step
mutates that one object in place; the embedding therefore threads a
single dictionary, whose final value is what the caller's dictionary
holds after construction.  At the concrete configuration the final
dictionary has the `teff` bound clipped to the grid extent, the default
`radius` bound inserted, and the fixed `logg` entry deleted — it no
longer holds its original contents. -/
theorem claim_C10_bounds_mutated_in_place :
    gridInit (fun q => q) gridDemoCfg = Except.ok
      { bounds := [("teff", BVal.range 1000 1500), ("radius", BVal.range (1/2) 5)]
      , modelpar := ["teff", "radius", "parallax"]
      , binary := false, nDisk := 0
      , fixParam := [("logg", 4)]
      , normalPrior := [("parallax", (10, 1))]
      , cubeIndex := [("teff", 0), ("radius", 1), ("parallax", 2)] } ∧
    ([("teff", BVal.range 1000 1500), ("radius", BVal.range (1/2) 5)]
      ≠ gridDemoCfg.userBounds) := by
  constructor
  · with_unfolding_all rfl
  · simp [gridDemoCfg]

/-! ## Claim C4 -/

/-- C4 (code bug): requesting a binary split with
`bounds={'teff': ((1000, 1500), (1300, 1800))}` does split `teff` into
`teff_0`/`teff_1` with their respective ranges and sets the binary flag
(first conjunct: the loop step on the `teff` grid entry), but
construction then crashes instead of producing the final parameter list:
the clipping block at source lines 641–673 sits inside the
mandatory-parameter loop, so the next grid parameter (`logg`, which the
user did not split) is looked up as `logg_0` and raises
`KeyError: 'logg_0'` (second conjunct: the full registry run). -/
theorem claim_C4_binary_split_keyerror :
    gridBoundsStep (binarySplitCfg.userBounds, false) ("teff", (500, 3000)) =
      Except.ok ([("teff_0", BVal.range 1000 1500),
        ("teff_1", BVal.range 1300 1800)], true) ∧
    gridInit (fun q => q) binarySplitCfg = Except.error (PyError.keyError "logg_0") := by
  constructor
  · with_unfolding_all rfl
  · with_unfolding_all rfl

/-! ## Claim C5 -/

theorem mem_of_lookup {α : Type} (l : List (String × α)) (k : String) (v : α)
    (h : l.lookup k = some v) : (k, v) ∈ l := by
  induction l with
  | nil => simp [List.lookup] at h
  | cons kv rest ih =>
      rcases hbeq : (k == kv.1) with _ | _
      · simp only [List.lookup, hbeq] at h
        exact List.mem_cons_of_mem _ (ih h)
      · simp only [List.lookup, hbeq] at h
        have hk : k = kv.1 := (beq_iff_eq (a := k) (b := kv.1)).mp hbeq
        cases h
        have hkv : (k, kv.2) = kv := by rw [hk]
        rw [hkv]
        exact List.mem_cons_self _ _

theorem not_mem_foldl_erase_of_not_mem (k : String) (l : List (String × ℚ))
    (mp : List String) (h : k ∉ mp) :
    k ∉ l.foldl (fun mp kv => mp.erase kv.1) mp := by
  induction l generalizing mp with
  | nil => exact h
  | cons kv rest ih =>
      exact ih _ (fun hm => h (List.mem_of_mem_erase hm))

theorem not_mem_foldl_erase (k : String) (v : ℚ) (l : List (String × ℚ))
    (mp : List String) (hmp : mp.Nodup) (hkl : (k, v) ∈ l) :
    k ∉ l.foldl (fun mp kv => mp.erase kv.1) mp := by
  induction l generalizing mp with
  | nil => simp at hkl
  | cons kv rest ih =>
      rcases List.mem_cons.mp hkl with heq | hkl2
      · rw [List.foldl_cons]
        apply not_mem_foldl_erase_of_not_mem
        intro hm
        rw [← heq] at hm
        exact ((hmp.mem_erase_iff).mp hm).1 rfl
      · exact ih _ (hmp.erase _) hkl2

theorem lookup_dictDel_self {α : Type} (d : List (String × α)) (k : String) :
    (dictDel d k).lookup k = none := by
  induction d with
  | nil => rfl
  | cons kv rest ih =>
      by_cases h : kv.1 = k
      · simpa [dictDel, h] using ih
      · have hbeq : (k == kv.1) = false := by
          simp [beq_eq_false_iff_ne]
          exact fun he => h he.symm
        simp [dictDel, h, List.lookup, hbeq]
        simpa [dictDel] using ih

theorem lookup_dictDel_of_none {α : Type} (d : List (String × α)) (k k2 : String)
    (h : d.lookup k = none) : (dictDel d k2).lookup k = none := by
  induction d with
  | nil => rfl
  | cons kv rest ih =>
      rcases hbeq : (k == kv.1) with _ | _
      · simp only [List.lookup, hbeq] at h
        by_cases h2 : kv.1 = k2
        · simpa [dictDel, h2] using ih h
        · simp [dictDel, h2, List.lookup, hbeq]
          simpa [dictDel] using ih h
      · simp only [List.lookup, hbeq] at h
        exact Option.noConfusion h

theorem lookup_foldl_dictDel_none (k : String) (v : ℚ) (l : List (String × ℚ))
    (d : List (String × BVal)) (hkl : (k, v) ∈ l) :
    (l.foldl (fun b kv => dictDel b kv.1) d).lookup k = none := by
  have hpres : ∀ (l2 : List (String × ℚ)) (d2 : List (String × BVal)),
      d2.lookup k = none →
      (l2.foldl (fun b kv => dictDel b kv.1) d2).lookup k = none := by
    intro l2
    induction l2 with
    | nil => exact fun d2 h => h
    | cons kv rest ih =>
        intro d2 h
        exact ih _ (lookup_dictDel_of_none _ _ _ h)
  induction l generalizing d with
  | nil => simp at hkl
  | cons kv rest ih =>
      rcases List.mem_cons.mp hkl with heq | hkl2
      · rw [List.foldl_cons]
        apply hpres
        have hk1 : kv.1 = k := by rw [← heq]
        rw [hk1]
        exact lookup_dictDel_self d k
      · exact ih _ hkl2

theorem lookup_enumFrom_map_none (mp : List String) (n : ℕ) (k : String)
    (h : k ∉ mp) :
    ((mp.enumFrom n).map (fun p => (p.2, p.1))).lookup k = none := by
  induction mp generalizing n with
  | nil => rfl
  | cons a rest ih =>
      have hka : (k == a) = false := by
        simp [beq_eq_false_iff_ne]
        exact fun he => h (he ▸ List.mem_cons_self a rest)
      simp only [List.enumFrom, List.map_cons, List.lookup, hka]
      exact ih (n + 1) (fun hm => h (List.mem_cons_of_mem _ hm))

theorem lookup_cubeIndexOf_none (mp : List String) (k : String) (h : k ∉ mp) :
    (cubeIndexOf mp).lookup k = none :=
  lookup_enumFrom_map_none mp 0 k h

theorem appendFixedToSamples_cons (kv : String × ℚ) (rest : List (String × ℚ))
    (mp : List String) (s : List (List ℚ)) :
    appendFixedToSamples (kv :: rest) mp s =
      appendFixedToSamples rest (mp ++ [kv.1]) (s.map (fun row => row ++ [kv.2])) := rfl

theorem appendFixed_persisted (fp : List (String × ℚ)) (mp : List String)
    (samples : List (List ℚ)) (j : ℕ) (k : String) (v : ℚ)
    (hname : mp[j]? = some k)
    (hrows : ∀ row ∈ samples, row[j]? = some v) :
    ((appendFixedToSamples fp mp samples).1)[j]? = some k ∧
    ∀ row ∈ (appendFixedToSamples fp mp samples).2, row[j]? = some v := by
  induction fp generalizing mp samples with
  | nil => exact ⟨hname, hrows⟩
  | cons kv rest ih =>
      rw [appendFixedToSamples_cons]
      apply ih
      · have hj : j < mp.length := (List.getElem?_eq_some.mp hname).1
        rw [List.getElem?_append_left hj]
        exact hname
      · intro row hrow
        obtain ⟨row0, hrow0, rfl⟩ := List.mem_map.mp hrow
        have hj : j < row0.length := (List.getElem?_eq_some.mp (hrows row0 hrow0)).1
        rw [List.getElem?_append_left hj]
        exact hrows row0 hrow0

theorem appendFixed_has_fixed (fp : List (String × ℚ)) (mp : List String)
    (samples : List (List ℚ)) (k : String) (v : ℚ)
    (hkv : (k, v) ∈ fp)
    (hlen : ∀ row ∈ samples, row.length = mp.length) :
    ∃ j : ℕ, ((appendFixedToSamples fp mp samples).1)[j]? = some k ∧
      ∀ row ∈ (appendFixedToSamples fp mp samples).2, row[j]? = some v := by
  induction fp generalizing mp samples with
  | nil => simp at hkv
  | cons kv rest ih =>
      rcases List.mem_cons.mp hkv with heq | h2
      · refine ⟨mp.length, ?_⟩
        rw [appendFixedToSamples_cons]
        apply appendFixed_persisted
        · rw [← heq]
          exact List.getElem?_concat_length mp k
        · intro row hrow
          obtain ⟨row0, hrow0, rfl⟩ := List.mem_map.mp hrow
          rw [← heq]
          rw [← hlen row0 hrow0]
          exact List.getElem?_concat_length row0 v
      · rw [appendFixedToSamples_cons]
        apply ih _ _ h2
        intro row hrow
        obtain ⟨row0, hrow0, rfl⟩ := List.mem_map.mp hrow
        simp [hlen row0 hrow0]

/-- C5: for every parameter whose bound has `lo == hi` (both non-null),
the fix step of setup (source lines 1139–1154) records it in the
fixed-parameter table, removes it from the bounds dictionary and from
the free-parameter list, the cube index (source lines 1191–1193) does
not carry it, and after a sampling run the fixed-parameter append step
(source lines 2300–2308) emits it with its constant value in every
posterior sample. -/
theorem claim_C5_fixed_params (bounds : List (String × BVal))
    (modelpar : List String) (samples : List (List ℚ)) (k : String) (v : ℚ)
    (hk : bounds.lookup k = some (BVal.range v v))
    (hmp : modelpar.Nodup)
    (hlen : ∀ row ∈ samples,
      row.length = ((resolveFixed bounds modelpar).2.1).length) :
    ((k, v) ∈ (resolveFixed bounds modelpar).2.2) ∧
    ((resolveFixed bounds modelpar).1).lookup k = none ∧
    k ∉ (resolveFixed bounds modelpar).2.1 ∧
    (cubeIndexOf (resolveFixed bounds modelpar).2.1).lookup k = none ∧
    (∃ j : ℕ, ((appendFixedToSamples (resolveFixed bounds modelpar).2.2
        (resolveFixed bounds modelpar).2.1 samples).1)[j]? = some k ∧
      ∀ row ∈ (appendFixedToSamples (resolveFixed bounds modelpar).2.2
        (resolveFixed bounds modelpar).2.1 samples).2, row[j]? = some v) := by
  have hmem : (k, BVal.range v v) ∈ bounds := mem_of_lookup _ _ _ hk
  have hdel : (k, v) ∈ bounds.filterMap
      (fun kv => (fixedValue kv.2).map (fun v => (kv.1, v))) :=
    List.mem_filterMap.mpr ⟨(k, BVal.range v v), hmem, by simp [fixedValue]⟩
  have h22 : (resolveFixed bounds modelpar).2.2 =
      bounds.filterMap (fun kv => (fixedValue kv.2).map (fun v => (kv.1, v))) := rfl
  have hnotmem : k ∉ (resolveFixed bounds modelpar).2.1 :=
    not_mem_foldl_erase k v _ modelpar hmp hdel
  refine ⟨h22 ▸ hdel, ?_, hnotmem, lookup_cubeIndexOf_none _ k hnotmem, ?_⟩
  · exact lookup_foldl_dictDel_none k v _ bounds hdel
  · exact appendFixed_has_fixed _ _ samples k v (h22 ▸ hdel) hlen

/-- Witness for C5 at a concrete setup: `logg` fixed to 4 by the bound
`(4, 4)`, free parameters `teff`/`radius` remaining, one posterior
sample `[1100, 1]`. -/
theorem claim_C5_fixed_params_witness :
    ((("logg" : String), (4 : ℚ)) ∈
      (resolveFixed [("teff", BVal.range 1000 1500), ("logg", BVal.range 4 4)]
        ["teff", "logg", "radius"]).2.2) ∧
    ((resolveFixed [("teff", BVal.range 1000 1500), ("logg", BVal.range 4 4)]
        ["teff", "logg", "radius"]).1).lookup "logg" = none ∧
    "logg" ∉ (resolveFixed [("teff", BVal.range 1000 1500), ("logg", BVal.range 4 4)]
        ["teff", "logg", "radius"]).2.1 ∧
    (cubeIndexOf (resolveFixed [("teff", BVal.range 1000 1500),
        ("logg", BVal.range 4 4)] ["teff", "logg", "radius"]).2.1).lookup "logg"
      = none ∧
    (∃ j : ℕ, ((appendFixedToSamples
        (resolveFixed [("teff", BVal.range 1000 1500), ("logg", BVal.range 4 4)]
          ["teff", "logg", "radius"]).2.2
        (resolveFixed [("teff", BVal.range 1000 1500), ("logg", BVal.range 4 4)]
          ["teff", "logg", "radius"]).2.1 [[1100, 1]]).1)[j]? = some "logg" ∧
      ∀ row ∈ (appendFixedToSamples
        (resolveFixed [("teff", BVal.range 1000 1500), ("logg", BVal.range 4 4)]
          ["teff", "logg", "radius"]).2.2
        (resolveFixed [("teff", BVal.range 1000 1500), ("logg", BVal.range 4 4)]
          ["teff", "logg", "radius"]).2.1 [[1100, 1]]).2, row[j]? = some (4 : ℚ)) :=
  claim_C5_fixed_params
    [("teff", BVal.range 1000 1500), ("logg", BVal.range 4 4)]
    ["teff", "logg", "radius"] [[1100, 1]] "logg" 4
    rfl (by decide)
    (by
      intro row hr
      simp at hr
      subst hr
      with_unfolding_all rfl)

end Species
